import Mathlib

/-!
Verification of the NotesApp backend's credential and token subsystem.

The definitions below are a shallow embedding of the Rust sources under
`src/backend/src`:

* `errors/mod.rs`      → `ErrorMessage`, `HttpError`
* `utils/password.rs`  → `hash`, `compare` (the argon2 library's encoded-hash
  format is modelled by `phcEncode` / `phcParse`, and the raw Argon2 digest
  primitive is a parameter `D` of the functions that use it)
* `handler/auth.rs`    → `register`, `login`
* `data/db.rs`         → `save_user`, `get_users_offset_wrapping`
* spec §4.2 / §4.3     → `create_token`, `consume` (their source files are
  absent from the repository snapshot; they are modelled from the spec)

Machine integers are modelled as `Nat` / `Int` with explicit `% 2^32`
wrapping where Rust `u32` arithmetic wraps.
-/

set_option maxRecDepth 40000

deriving instance DecidableEq for Except

namespace NotesApp

/-- The error enumeration from `errors/mod.rs` (`ErrorMessage`). -/
inductive ErrorMessage where
  | EmptyPassword
  | ExceededMaxPasswordLength (length : Nat)
  | HashingError
  | InvalidHashFormat
  | InvalidToken
  | ServerError
  | WrongCredentials
  | EmailExists
  | UserNoLongerExist
  | TokenNotProvided
  | PermissionDenied
  | UserNotAuthenticated
deriving DecidableEq

/-- `ErrorMessage::to_str` from `errors/mod.rs`.  The Rust source has a
duplicate match arm for `UserNotAuthenticated` (dead code with the same
output), which a Lean `match` cannot express; the rendering is identical. -/
def ErrorMessage.to_str : ErrorMessage → String
  | .EmptyPassword => "Password is required"
  | .ExceededMaxPasswordLength length => "Max password length is " ++ toString length
  | .HashingError => "Hashing error"
  | .InvalidToken => "Invalid token"
  | .ServerError => "Server error"
  | .WrongCredentials => "Wrong credentials provided"
  | .EmailExists => "Email already exists"
  | .UserNotAuthenticated => "User not authenticated"
  | .PermissionDenied => "Permission denied"
  | .InvalidHashFormat => "Invalid hash format"
  | .UserNoLongerExist => "User no longer exist"
  | .TokenNotProvided => "Token not provided"

/-- `HttpError` from `errors/mod.rs`: a message plus an HTTP status code. -/
structure HttpError where
  message : String
  status : Nat
deriving DecidableEq

/-- `HttpError::server_error` (500). -/
def HttpError.server_error (message : String) : HttpError := ⟨message, 500⟩

/-- `HttpError::bad_request` (400). -/
def HttpError.bad_request (message : String) : HttpError := ⟨message, 400⟩

/-- `HttpError::unique_constraint_violation` (409). -/
def HttpError.unique_constraint_violation (message : String) : HttpError := ⟨message, 409⟩

/-- `HttpError::unauthorized` (401). -/
def HttpError.unauthorized (message : String) : HttpError := ⟨message, 401⟩

/-! ## The argon2 encoded-hash (PHC string) model

`utils/password.rs` delegates digest computation and hash encoding/parsing to
the `argon2` / `password-hash` crates.  Those crates are modelled here at
their interface: an encoded hash is the `$`-separated self-describing string
`$argon2id$v=19$<params>$<salt>$<hex digest>` (spec §4.1: "algorithm id +
parameters + salt + digest, self-describing"), the digest itself is a byte
sequence produced by an arbitrary deterministic digest function `D`, and the
digest bytes are serialised with a `$`-free alphabet (the crate uses B64; the
model uses hex, which is likewise `$`-free and injective on bytes). -/

/-- `MAX_PASSWORD_LENGTH` from `utils/password.rs`. -/
def MAX_PASSWORD_LENGTH : Nat := 128

/-- `SALT_STR` from `utils/password.rs`: the fixed application-wide salt. -/
def SALT_STR : String := "öasldgjfAFGÄLÖJAdfgadfgasdfö"

/-- One hex digit, for serialising digest bytes (lower-case hex via
`Nat.digitChar`). -/
def hexDigit (n : Nat) : Char := n.digitChar

/-- Value of one hex digit, by code point: `0`-`9` then `a`-`f`. -/
def hexVal (c : Char) : Option Nat :=
  if 48 ≤ c.toNat ∧ c.toNat ≤ 57 then some (c.toNat - 48)
  else if 97 ≤ c.toNat ∧ c.toNat ≤ 102 then some (c.toNat - 87)
  else none

/-- Serialise digest bytes, two hex digits per byte. -/
def hexEncode : List Nat → List Char
  | [] => []
  | b :: bs => hexDigit (b / 16) :: hexDigit (b % 16) :: hexEncode bs

/-- Deserialise digest bytes; fails on a non-hex character or odd length. -/
def hexDecode : List Char → Option (List Nat)
  | [] => some []
  | [_] => none
  | c1 :: c2 :: rest =>
    match hexVal c1, hexVal c2, hexDecode rest with
    | some h, some l, some bs => some ((h * 16 + l) :: bs)
    | _, _, _ => none

/-- Split a character list at every occurrence of `sep`, keeping empty
fields, like the `$`-field structure of a PHC string. -/
def splitOnChar (sep : Char) : List Char → List (List Char)
  | [] => [[]]
  | c :: cs =>
    let r := splitOnChar sep cs
    if c = sep then [] :: r
    else
      match r with
      | [] => [[c]]
      | h :: t => (c :: h) :: t

/-- A parsed PHC hash: the salt and the digest bytes (the algorithm id,
version and parameters are the fixed `Argon2::default()` ones). -/
structure PHC where
  salt : String
  digest : List Nat
deriving DecidableEq

/-- The fixed parameter field of `Argon2::default()` (argon2id, v19,
m=19456, t=2, p=1). -/
def phcParams : String := "m=19456,t=2,p=1"

/-- Encode a PHC hash to its string form
`$argon2id$v=19$<params>$<salt>$<hex digest>`. -/
def phcEncode (h : PHC) : String :=
  String.mk ('$' :: "argon2id".data ++ '$' :: "v=19".data ++ '$' :: phcParams.data
    ++ '$' :: h.salt.data ++ '$' :: hexEncode h.digest)

/-- Parse an encoded hash string (`PasswordHash::new` in the argon2 model):
split on `$` and require the six fields of a self-describing argon2id hash. -/
def phcParse (s : String) : Option PHC :=
  match splitOnChar '$' s.data with
  | [pre, alg, ver, params, saltF, digestF] =>
    if pre = ([] : List Char) ∧ alg = "argon2id".data ∧ ver = "v=19".data
        ∧ params = phcParams.data then
      match hexDecode digestF with
      | some dg => some ⟨String.mk saltF, dg⟩
      | none => none
    else none
  | _ => none

/-! ## `utils/password.rs`

`hash` and `compare` are parameterised by the raw Argon2 digest primitive
`D : String → String → List Nat` (plaintext, salt ↦ digest bytes), which
lives in the external argon2 crate.  Rust's `String::is_empty` and
`String::len` are byte-based, hence `String.utf8ByteSize` here. -/

/-- `hash` from `utils/password.rs`. -/
def hash (D : String → String → List Nat) (password : String) :
    Except ErrorMessage String :=
  if password.utf8ByteSize = 0 then .error .EmptyPassword
  else if password.utf8ByteSize > MAX_PASSWORD_LENGTH then
    .error (.ExceededMaxPasswordLength MAX_PASSWORD_LENGTH)
  else .ok (phcEncode ⟨SALT_STR, D password SALT_STR⟩)

/-- `compare` from `utils/password.rs`: same length guards, then parse the
stored hash (`MalformedHash` ↦ `InvalidHashFormat` on failure), then
recompute the digest with the parsed salt and compare. -/
def compare (D : String → String → List Nat) (password hashed_pwd : String) :
    Except ErrorMessage Bool :=
  if password.utf8ByteSize = 0 then .error .EmptyPassword
  else if password.utf8ByteSize > MAX_PASSWORD_LENGTH then
    .error (.ExceededMaxPasswordLength MAX_PASSWORD_LENGTH)
  else
    match phcParse hashed_pwd with
    | none => .error .InvalidHashFormat
    | some parsed_hash => .ok (D password parsed_hash.salt == parsed_hash.digest)

/-! ## Data model (`models/users.rs`, `data/dtos.rs`)

`uuid::Uuid` is modelled as `String`, `NaiveDateTime` as an `Int` timestamp. -/

/-- `UserRole` from `models/users.rs`. -/
inductive UserRole where
  | Admin
  | User
deriving DecidableEq

/-- `User` from `models/users.rs`. -/
structure User where
  id : String
  name : String
  email : String
  verified : Bool
  password : String
  verification_token : Option String
  token_expires_at : Option Int
  role : UserRole
  created_at : Option Int
  updated_at : Option Int
deriving DecidableEq

/-- `RegisterUserDto` from `data/dtos.rs`. -/
structure RegisterUserDto where
  name : String
  email : String
  password : String
  confirm_password : String
deriving DecidableEq

/-- `LoginUserDto` from `data/dtos.rs`. -/
structure LoginUserDto where
  email : String
  password : String
deriving DecidableEq

/-- `Response` from `data/dtos.rs`. -/
structure Response where
  status : String
  message : String
deriving DecidableEq

/-- Modelled from the spec: the validator crate's email syntax check
(the crate is external to the repository; spec §4.4 asks only for "valid
email syntax").  Simplified to: exactly one `@`, with nonempty local and
domain parts. -/
def isValidEmail (s : String) : Bool :=
  match splitOnChar '@' s.data with
  | [l, d] => !l.isEmpty && !d.isEmpty
  | _ => false

/-- `RegisterUserDto::validate` (the `#[validate]` rules in `data/dtos.rs`):
nonempty name, valid email, password and confirmation of length ≥ 8 with
`must_match(other = "password")`.  The validator crate measures string
length in characters. -/
def validateRegister (b : RegisterUserDto) : Bool :=
  decide (1 ≤ b.name.length) && decide (1 ≤ b.email.length) && isValidEmail b.email
    && decide (8 ≤ b.password.length) && decide (8 ≤ b.confirm_password.length)
    && (b.confirm_password == b.password)

/-- `LoginUserDto::validate` (the `#[validate]` rules in `data/dtos.rs`). -/
def validateLogin (b : LoginUserDto) : Bool :=
  decide (1 ≤ b.email.length) && isValidEmail b.email && decide (8 ≤ b.password.length)

/-! ## The diesel store layer (`data/db.rs`) -/

/-- `diesel::result::DatabaseErrorKind` (the diesel crate's error kinds;
the source names only `UniqueViolation`, the rest are the crate's other
variants). -/
inductive DatabaseErrorKind where
  | UniqueViolation
  | ForeignKeyViolation
  | NotNullViolation
  | CheckViolation
  | ClosedConnection
  | Unknown
deriving DecidableEq

/-- `diesel::result::Error`, restricted to the variants the handlers
construct or inspect. -/
inductive DieselError where
  | DatabaseError (kind : DatabaseErrorKind) (info : String)
  | QueryBuilderError (info : String)
  | NotFound
deriving DecidableEq

/-- The `ToString` rendering of a diesel error (used by the handlers'
`e.to_string()`); the exact text is the crate's, only its shape matters. -/
def dieselErrorToString : DieselError → String
  | .DatabaseError _ info => info
  | .QueryBuilderError info => info
  | .NotFound => "Record not found"

/-- `std::any::Any::type_id` on a `DatabaseErrorKind` value.  In Rust this
returns the `TypeId` of the value's static type, which is
`DatabaseErrorKind` for every variant — it does not depend on which variant
the value is.  `register` in `handler/auth.rs` compares two such `TypeId`s. -/
def kindTypeId (_ : DatabaseErrorKind) : String := "diesel::result::DatabaseErrorKind"

/-- `save_user` from `data/db.rs`.  The database itself is external: the
reply of the diesel `insert_into(users)…get_result` call is the parameter
`insertResult`, `pool` tells whether `pool.get()` succeeded, and `joinOk`
whether the `spawn_blocking` task joined.  The function's own error mapping
is reproduced exactly: a pool failure becomes
`DatabaseError(UniqueViolation, "Failed to get DB connection")`, and every
insert error `e` is rewrapped as `DatabaseError(UniqueViolation,
e.to_string())` whatever its original kind.  The row values are passed
through to the store and do not influence the mapping. -/
def save_user (_name _email _password _verification_token : String)
    (_token_expires_at : Int) (pool joinOk : Bool)
    (insertResult : Except DieselError User) : Except DieselError User :=
  if !joinOk then .error (.QueryBuilderError "task join error")
  else if !pool then
    .error (.DatabaseError .UniqueViolation "Failed to get DB connection")
  else
    match insertResult with
    | .ok u => .ok u
    | .error e => .error (.DatabaseError .UniqueViolation (dieselErrorToString e))

/-- The `u32` modulus. -/
def U32_MOD : Nat := 4294967296

/-- The pagination offset computed by `get_users` in `data/db.rs`:
`let offset = (page - 1) * limit as u32;` with `page : u32`,
`limit : usize`, under release-mode (wrapping) semantics.  `page - 1`
wraps below zero, `limit as u32` truncates, the product wraps. -/
def get_users_offset_wrapping (page limit : Nat) : Nat :=
  ((page + U32_MOD - 1) % U32_MOD) * (limit % U32_MOD) % U32_MOD

/-- The same offset computation under debug-mode (checked) semantics: the
subtraction panics (`none`) when `page = 0`, the product panics on `u32`
overflow; the `as u32` cast truncates silently in both modes. -/
def get_users_offset_checked (page limit : Nat) : Option Nat :=
  if page = 0 then none
  else if (page - 1) * (limit % U32_MOD) ≥ U32_MOD then none
  else some ((page - 1) * (limit % U32_MOD))

/-! ## Token issuance (spec §4.2) and the auth handlers (`handler/auth.rs`) -/

/-- Modelled from the spec: `utils/config.rs` is absent from the repository
snapshot; §6 lists the configuration as the signing secret and the token
ttl in minutes (`jwt_maxage`, an `i64` in the call sites). -/
structure Config where
  jwt_secret : String
  jwt_maxage : Int
deriving DecidableEq

/-- Modelled from the spec: `utils/token.rs` (`token::create_token`) is
absent from the repository snapshot.  Spec §4.2: `issue(subject_id, secret,
ttl_minutes)` produces a signed token encoding the subject and an expiry
computed as now + ttl.  The claims here concern only the embedded
subject/issued-at/expiry, so the token is modelled as those claims. -/
structure TokenClaims where
  sub : String
  iat : Int
  exp : Int
deriving DecidableEq

/-- Modelled from the spec (§4.2): token issuance at time `now` (seconds)
with a ttl given in minutes. -/
def create_token (sub : String) (_secret : String) (ttl_minutes : Int)
    (now : Int) : TokenClaims :=
  ⟨sub, now, now + ttl_minutes * 60⟩

/-- The session cookie built by `login` in `handler/auth.rs`. -/
structure Cookie where
  name : String
  value : TokenClaims
  path : String
  maxAgeSeconds : Int
  httpOnly : Bool
deriving DecidableEq

/-- The successful login response: the `UserLoginResponseDto` body plus the
`Set-Cookie` header. -/
structure LoginResponse where
  status : String
  token : TokenClaims
  cookie : Cookie
deriving DecidableEq

/-- `login` from `handler/auth.rs`.  The external store's
`get_user(None, None, Some(email), None)` reply is the parameter
`findByEmail`; `D` is the Argon2 digest primitive; `now` is the current
time in seconds.  The cookie duration is the source's
`time::Duration::minutes(jwt_maxage * 60)`, i.e. `jwt_maxage * 60` minutes
= `(jwt_maxage * 60) * 60` seconds. -/
def login (env : Config) (D : String → String → List Nat)
    (findByEmail : String → Except DieselError (Option User)) (now : Int)
    (body : LoginUserDto) : Except HttpError LoginResponse :=
  if !validateLogin body then .error (HttpError.bad_request "Validation error")
  else
    match findByEmail body.email with
    | .error e => .error (HttpError.server_error (dieselErrorToString e))
    | .ok none => .error (HttpError.bad_request ErrorMessage.WrongCredentials.to_str)
    | .ok (some user) =>
      match compare D body.password user.password with
      | .error _ => .error (HttpError.bad_request ErrorMessage.WrongCredentials.to_str)
      | .ok false => .error (HttpError.bad_request ErrorMessage.WrongCredentials.to_str)
      | .ok true =>
        let token := create_token user.id env.jwt_secret env.jwt_maxage now
        let cookie_duration := (env.jwt_maxage * 60) * 60
        .ok ⟨"success", token,
          ⟨"token", token, "/", cookie_duration, true⟩⟩

/-- What `register` returns: the HTTP result, plus the lines written to the
error log (the `eprintln!` observability sink). -/
structure RegisterOutcome where
  result : Except HttpError (Nat × Response)
  log : List String
deriving DecidableEq

/-- `register` from `handler/auth.rs`.  The externally produced inputs are
parameters: `vtoken` (the fresh `uuid::Uuid::new_v4()`), `expires_at`
(now + 24h), the store reply (`pool`/`joinOk`/`insertResult`, consumed via
`save_user`), and the mail-send outcome `mailResult`.  A mail failure is
only written to the log; the uniqueness check on a `DatabaseError` compares
`TypeId`s via `kindTypeId` exactly as the source does, with the
 (unreachable) generic-500 else branch reproduced. -/
def register (D : String → String → List Nat) (vtoken : String)
    (expires_at : Int) (pool joinOk : Bool)
    (insertResult : Except DieselError User) (mailResult : Except String Unit)
    (body : RegisterUserDto) : RegisterOutcome :=
  if !validateRegister body then
    ⟨.error (HttpError.bad_request "Validation error"), []⟩
  else
    match hash D body.password with
    | .error e => ⟨.error (HttpError.server_error e.to_str), []⟩
    | .ok hash_password =>
      match save_user body.name body.email hash_password vtoken expires_at
          pool joinOk insertResult with
      | .ok _user =>
        let log := match mailResult with
          | .ok _ => []
          | .error e => ["Error sending verification email: " ++ e]
        ⟨.ok (201, ⟨"success",
          "Registration successfull Please check your emil to verify your account."⟩),
          log⟩
      | .error (.DatabaseError db_err _) =>
        if kindTypeId db_err = kindTypeId .UniqueViolation then
          ⟨.error (HttpError.unique_constraint_violation
            ErrorMessage.EmailExists.to_str), []⟩
        else
          ⟨.error (HttpError.server_error "Database error"), []⟩
      | .error e => ⟨.error (HttpError.server_error (dieselErrorToString e)), []⟩

/-! ## Verification-token lifecycle (spec §4.3)

The `verify_email` handler in `handler/auth.rs` is an empty stub and
`data/db.rs` only provides the `verified_token` update; the consumption
state machine itself is therefore modelled from the spec. -/

/-- Modelled from the spec (§4.3): the per-(user, purpose) verification
token states. -/
inductive TokenState where
  | noToken
  | pending (expiry : Int)
  | consumed
  | expired
deriving DecidableEq

/-- Modelled from the spec (§4.3): the errors `consume` can fail with. -/
inductive ConsumeError where
  | InvalidToken
  | TokenExpired
deriving DecidableEq

/-- Modelled from the spec (§4.3): `consume(token)` — fails `InvalidToken`
when no `Pending` token exists (not found, already consumed, or already
marked expired), fails `TokenExpired` past the expiry (transitioning the
state to `Expired`), and otherwise transitions `Pending → Consumed`.
Returns the new state together with the outcome. -/
def consume (now : Int) : TokenState → TokenState × Except ConsumeError Unit
  | .noToken => (.noToken, .error .InvalidToken)
  | .consumed => (.consumed, .error .InvalidToken)
  | .expired => (.expired, .error .InvalidToken)
  | .pending expiry =>
    if expiry < now then (.expired, .error .TokenExpired)
    else (.consumed, .ok ())

/-! ## Demonstration inputs used by the concrete theorems -/

/-- A concrete digest primitive for concrete evaluations. -/
def demoD : String → String → List Nat := fun _ _ => [7]

/-- A concrete stored user whose hash matches password digest `[7]`. -/
def demoUser : User :=
  ⟨"42", "Alice", "a@x.com", false, phcEncode ⟨SALT_STR, [7]⟩, none, none,
    .User, none, none⟩

/-- A concrete stored user whose password column does not parse as a PHC
hash. -/
def demoUserBadHash : User :=
  ⟨"42", "Alice", "a@x.com", false, "not-a-valid-hash", none, none,
    .User, none, none⟩

/-! ## Helper lemmas: the PHC encode/parse round trip -/

theorem hexDigit_ne_dollar (n : Nat) : hexDigit n ≠ '$' := by
  by_cases h : n < 16
  · exact (by decide : ∀ m, m < 16 → hexDigit m ≠ '$') n h
  · unfold hexDigit Nat.digitChar
    repeat rw [if_neg (by omega)]
    decide

theorem hexVal_hexDigit : ∀ n, n < 16 → hexVal (hexDigit n) = some n := by
  decide

theorem hexEncode_ne_dollar (bs : List Nat) : ∀ c ∈ hexEncode bs, c ≠ '$' := by
  induction bs with
  | nil => intro c hc; cases hc
  | cons b bs ih =>
    intro c hc
    simp only [hexEncode, List.mem_cons] at hc
    rcases hc with h | h | h
    · exact h ▸ hexDigit_ne_dollar _
    · exact h ▸ hexDigit_ne_dollar _
    · exact ih c h

theorem hexDecode_hexEncode (bs : List Nat) (h : ∀ b ∈ bs, b < 256) :
    hexDecode (hexEncode bs) = some bs := by
  induction bs with
  | nil => rfl
  | cons b bs ih =>
    have hb : b < 256 := h b (List.mem_cons_self b bs)
    have hdiv : b / 16 < 16 := Nat.div_lt_of_lt_mul (by omega)
    have hmod : b % 16 < 16 := Nat.mod_lt _ (by omega)
    have hrest : hexDecode (hexEncode bs) = some bs :=
      ih (fun x hx => h x (List.mem_cons_of_mem b hx))
    simp only [hexEncode, hexDecode, hexVal_hexDigit _ hdiv, hexVal_hexDigit _ hmod,
      hrest]
    have : b / 16 * 16 + b % 16 = b := by omega
    rw [this]

theorem splitOnChar_cons (sep c : Char) (cs : List Char) :
    splitOnChar sep (c :: cs)
      = if c = sep then [] :: splitOnChar sep cs
        else
          match splitOnChar sep cs with
          | [] => [[c]]
          | h :: t => (c :: h) :: t := rfl

theorem splitOnChar_append (sep : Char) (a b : List Char)
    (h : ∀ c ∈ a, c ≠ sep) :
    splitOnChar sep (a ++ sep :: b) = a :: splitOnChar sep b := by
  induction a with
  | nil => simp [splitOnChar]
  | cons c a ih =>
    have hc : c ≠ sep := h c (List.mem_cons_self c a)
    have ha : ∀ x ∈ a, x ≠ sep := fun x hx => h x (List.mem_cons_of_mem c hx)
    rw [List.cons_append, splitOnChar_cons, ih ha, if_neg hc]

theorem splitOnChar_no_sep (sep : Char) (a : List Char)
    (h : ∀ c ∈ a, c ≠ sep) :
    splitOnChar sep a = [a] := by
  induction a with
  | nil => rfl
  | cons c a ih =>
    have hc : c ≠ sep := h c (List.mem_cons_self c a)
    have ha : ∀ x ∈ a, x ≠ sep := fun x hx => h x (List.mem_cons_of_mem c hx)
    rw [splitOnChar_cons, ih ha, if_neg hc]

theorem phcParse_phcEncode (salt : String) (dg : List Nat)
    (hs : ∀ c ∈ salt.data, c ≠ '$') (hd : ∀ b ∈ dg, b < 256) :
    phcParse (phcEncode ⟨salt, dg⟩) = some ⟨salt, dg⟩ := by
  have h1 : ∀ c ∈ ("argon2id".data), c ≠ '$' := by decide
  have h2 : ∀ c ∈ ("v=19".data), c ≠ '$' := by decide
  have h3 : ∀ c ∈ (phcParams.data), c ≠ '$' := by decide
  unfold phcParse phcEncode
  rw [show ('$' :: "argon2id".data ++ '$' :: "v=19".data ++ '$' :: phcParams.data
      ++ '$' :: salt.data ++ '$' :: hexEncode dg)
    = ([] : List Char) ++ '$' :: ("argon2id".data ++ '$' :: ("v=19".data
      ++ '$' :: (phcParams.data ++ '$' :: (salt.data ++ '$' :: hexEncode dg))))
    from by simp]
  rw [splitOnChar_append '$' [] _ (by intro c hc; cases hc)]
  rw [splitOnChar_append '$' _ _ h1, splitOnChar_append '$' _ _ h2,
    splitOnChar_append '$' _ _ h3, splitOnChar_append '$' _ _ hs,
    splitOnChar_no_sep '$' _ (hexEncode_ne_dollar dg)]
  simp [hexDecode_hexEncode dg hd]

/-! ## Claims -/

/-- Claim C1: for every plaintext `p` whose byte length is between 1 and 128
inclusive, and every deterministic digest primitive `D` producing byte
digests (as the external Argon2 does), verifying `p` against the hash
produced for `p` succeeds: `compare(p, hash(p))` returns `Ok(true)`. -/
theorem claim_c1_compare_of_hash (D : String → String → List Nat) (p : String)
    (h1 : 1 ≤ p.utf8ByteSize) (h2 : p.utf8ByteSize ≤ 128)
    (hD : ∀ b ∈ D p SALT_STR, b < 256) :
    ∀ h, hash D p = Except.ok h → compare D p h = Except.ok true := by
  intro hstr hh
  have hne : ¬ (p.utf8ByteSize = 0) := by omega
  have hng : ¬ (p.utf8ByteSize > MAX_PASSWORD_LENGTH) := by
    unfold MAX_PASSWORD_LENGTH; omega
  unfold hash at hh
  rw [if_neg hne, if_neg hng] at hh
  injection hh with hh
  subst hh
  unfold compare
  rw [if_neg hne, if_neg hng]
  have hsalt : ∀ c ∈ SALT_STR.data, c ≠ '$' := by decide
  rw [phcParse_phcEncode SALT_STR (D p SALT_STR) hsalt hD]
  simp

/-- Witness for C1 at `p = "password1"` with the digest primitive `demoD`. -/
theorem claim_c1_compare_of_hash_witness :
    compare demoD "password1" (phcEncode ⟨SALT_STR, demoD "password1" SALT_STR⟩)
      = Except.ok true :=
  claim_c1_compare_of_hash demoD "password1" (by decide) (by decide) (by decide)
    (phcEncode ⟨SALT_STR, demoD "password1" SALT_STR⟩) (by decide)

/-- Claim C2: for every plaintext in the valid length range, (a) if the
stored-hash string does not parse, `compare` fails with `InvalidHashFormat`
(the `MalformedHash` error) and never returns true, and (b) if the stored
hash is well formed but its digest does not match the recomputed one,
`compare` returns `Ok(false)` rather than an error. -/
theorem claim_c2_malformed_and_mismatch (D : String → String → List Nat)
    (p s : String) (h1 : 1 ≤ p.utf8ByteSize) (h2 : p.utf8ByteSize ≤ 128) :
    (phcParse s = none →
      compare D p s = Except.error ErrorMessage.InvalidHashFormat
        ∧ compare D p s ≠ Except.ok true)
    ∧ ∀ ph, phcParse s = some ph → D p ph.salt ≠ ph.digest →
        compare D p s = Except.ok false := by
  have hne : ¬ (p.utf8ByteSize = 0) := by omega
  have hng : ¬ (p.utf8ByteSize > MAX_PASSWORD_LENGTH) := by
    unfold MAX_PASSWORD_LENGTH; omega
  constructor
  · intro hp
    have hcomp : compare D p s = Except.error ErrorMessage.InvalidHashFormat := by
      unfold compare
      rw [if_neg hne, if_neg hng, hp]
    refine ⟨hcomp, ?_⟩
    rw [hcomp]
    simp
  · intro ph hp hmis
    unfold compare
    rw [if_neg hne, if_neg hng, hp]
    simpa using beq_eq_false_iff_ne.mpr hmis

/-- Witness for C2: the malformed stored hash `"not-a-valid-hash"` and a
well-formed non-matching hash, both at `p = "password1"`. -/
theorem claim_c2_malformed_and_mismatch_witness :
    compare demoD "password1" "not-a-valid-hash"
        = Except.error ErrorMessage.InvalidHashFormat
    ∧ compare (fun _ _ => [1]) "password1" (phcEncode ⟨SALT_STR, [0]⟩)
        = Except.ok false :=
  ⟨((claim_c2_malformed_and_mismatch demoD "password1" "not-a-valid-hash"
      (by decide) (by decide)).1 (by decide)).1,
   (claim_c2_malformed_and_mismatch (fun _ _ => [1]) "password1"
      (phcEncode ⟨SALT_STR, [0]⟩) (by decide) (by decide)).2
      ⟨SALT_STR, [0]⟩ (by decide) (by decide)⟩

/-- Claim C3: `hash("")` fails with the empty-input error kind
(`EmptyPassword`), any plaintext longer than 128 bytes fails with the
too-long kind (`ExceededMaxPasswordLength 128`), no hash value is produced
in either case, and the same preconditions and error kinds apply to
`compare`. -/
theorem claim_c3_empty_and_too_long (D : String → String → List Nat)
    (p h : String) (hp : p.utf8ByteSize > 128) :
    hash D "" = Except.error ErrorMessage.EmptyPassword
    ∧ compare D "" h = Except.error ErrorMessage.EmptyPassword
    ∧ hash D p = Except.error (ErrorMessage.ExceededMaxPasswordLength 128)
    ∧ compare D p h = Except.error (ErrorMessage.ExceededMaxPasswordLength 128) := by
  have hne : ¬ (p.utf8ByteSize = 0) := by omega
  have hg : p.utf8ByteSize > MAX_PASSWORD_LENGTH := by
    unfold MAX_PASSWORD_LENGTH; omega
  refine ⟨rfl, rfl, ?_, ?_⟩
  · unfold hash
    rw [if_neg hne, if_pos hg]
    rfl
  · unfold compare
    rw [if_neg hne, if_pos hg]
    rfl

/-- Witness for C3 at the empty string and a 129-byte plaintext. -/
theorem claim_c3_empty_and_too_long_witness :
    hash demoD "" = Except.error ErrorMessage.EmptyPassword
    ∧ hash demoD (String.mk (List.replicate 129 'a'))
        = Except.error (ErrorMessage.ExceededMaxPasswordLength 128) :=
  ⟨(claim_c3_empty_and_too_long demoD (String.mk (List.replicate 129 'a')) ""
      (by decide)).1,
   (claim_c3_empty_and_too_long demoD (String.mk (List.replicate 129 'a')) ""
      (by decide)).2.2.1⟩

/-- Claim C4: a login whose email matches no stored user and a login whose
email finds a user but whose password does not match produce identical
errors — both are the 400 `WrongCredentials` ("Wrong credentials provided")
error, identical in kind, status and message, so the response does not
reveal which case occurred. -/
theorem claim_c4_login_indistinguishable (env : Config)
    (D : String → String → List Nat)
    (find1 find2 : String → Except DieselError (Option User)) (now : Int)
    (body1 body2 : LoginUserDto) (u : User)
    (hv1 : validateLogin body1 = true) (hv2 : validateLogin body2 = true)
    (h1 : find1 body1.email = Except.ok none)
    (h2 : find2 body2.email = Except.ok (some u))
    (hcmp : compare D body2.password u.password = Except.ok false) :
    login env D find1 now body1
        = Except.error (HttpError.bad_request ErrorMessage.WrongCredentials.to_str)
    ∧ login env D find2 now body2
        = Except.error (HttpError.bad_request ErrorMessage.WrongCredentials.to_str)
    ∧ login env D find1 now body1 = login env D find2 now body2 := by
  have e1 : login env D find1 now body1
      = Except.error (HttpError.bad_request ErrorMessage.WrongCredentials.to_str) := by
    simp [login, hv1, h1]
  have e2 : login env D find2 now body2
      = Except.error (HttpError.bad_request ErrorMessage.WrongCredentials.to_str) := by
    simp [login, hv2, h2, hcmp]
  exact ⟨e1, e2, by rw [e1, e2]⟩

/-- Witness for C4: a nonexistent email versus `demoUser` with a
non-matching password. -/
theorem claim_c4_login_indistinguishable_witness :
    login ⟨"secret", 60⟩ (fun _ _ => [1]) (fun _ => Except.ok none) 0
        ⟨"b@x.com", "password1"⟩
      = Except.error (HttpError.bad_request ErrorMessage.WrongCredentials.to_str)
    ∧ login ⟨"secret", 60⟩ (fun _ _ => [1]) (fun _ => Except.ok (some demoUser)) 0
        ⟨"a@x.com", "password1"⟩
      = Except.error (HttpError.bad_request ErrorMessage.WrongCredentials.to_str) := by
  have h := claim_c4_login_indistinguishable ⟨"secret", 60⟩ (fun _ _ => [1])
    (fun _ => Except.ok none) (fun _ => Except.ok (some demoUser)) 0
    ⟨"b@x.com", "password1"⟩ ⟨"a@x.com", "password1"⟩ demoUser
    (by decide) (by decide) rfl rfl (by decide)
  exact ⟨h.1, h.2.1⟩

/-- Claim C5: once `consume(t)` succeeds, the token's state is `Consumed`
(no longer `Pending`), and every subsequent `consume(t)` fails with
`InvalidToken` while leaving the state `Consumed` — the `Consumed` state is
terminal. -/
theorem claim_c5_consume_single_use (now : Int) (st st2 : TokenState)
    (h : consume now st = (st2, Except.ok ())) :
    st2 = TokenState.consumed
    ∧ ∀ now2 : Int, consume now2 st2
        = (TokenState.consumed, Except.error ConsumeError.InvalidToken) := by
  have hst2 : st2 = TokenState.consumed := by
    cases st with
    | noToken => simp [consume] at h
    | consumed => simp [consume] at h
    | expired => simp [consume] at h
    | pending e =>
      simp only [consume] at h
      by_cases hc : e < now
      · rw [if_pos hc] at h
        simp at h
      · rw [if_neg hc] at h
        have h1 := congrArg Prod.fst h
        simpa using h1.symm
  subst hst2
  exact ⟨rfl, fun _ => rfl⟩

/-- Witness for C5: a pending unexpired token is consumed once, and the
second consumption fails with `InvalidToken`. -/
theorem claim_c5_consume_single_use_witness :
    consume 0 (TokenState.pending 100) = (TokenState.consumed, Except.ok ())
    ∧ consume 50 TokenState.consumed
        = (TokenState.consumed, Except.error ConsumeError.InvalidToken) :=
  ⟨by decide,
   (claim_c5_consume_single_use 0 (TokenState.pending 100) TokenState.consumed
      (by decide)).2 50⟩

/-- Claim C6 (refuted — code bug): in a successful login response the
cookie Max-Age does not equal the token's embedded ttl.  With
`jwt_maxage = 60` (the ttl in minutes, spec §6), the source's
`time::Duration::minutes(jwt_maxage * 60)` gives the cookie a Max-Age of
216000 seconds while the token issued with the same `jwt_maxage` expires
3600 seconds after issuance: the cookie outlives the token by a factor of
60. -/
theorem claim_c6_cookie_token_ttl_mismatch :
    (login ⟨"secret", 60⟩ demoD (fun _ => Except.ok (some demoUser)) 0
        ⟨"a@x.com", "password1"⟩).map
        (fun r => (r.cookie.maxAgeSeconds, r.token.exp - r.token.iat))
      = Except.ok ((216000 : Int), (3600 : Int))
    ∧ (216000 : Int) ≠ (3600 : Int) := by
  exact ⟨by decide, by decide⟩

/-- Claim C7 (refuted — code bug): `DuplicateEmail` (409) is not reserved
to uniqueness violations.  `save_user` rewraps every insert error as
`DatabaseError(UniqueViolation, …)`, and register's `type_id()` comparison
of two `DatabaseErrorKind` values is true whatever the kind, so a
registration whose insert fails with a foreign-key violation — or whose
connection-pool checkout fails — returns the 409 "Email already exists"
error instead of the generic 500 the spec requires. -/
theorem claim_c7_duplicate_email_on_any_db_error :
    (register demoD "tok" 0 true true
        (Except.error (DieselError.DatabaseError
          DatabaseErrorKind.ForeignKeyViolation "fk"))
        (Except.ok ()) ⟨"Alice", "a@x.com", "password1", "password1"⟩).result
      = Except.error (HttpError.unique_constraint_violation
          ErrorMessage.EmailExists.to_str)
    ∧ (register demoD "tok" 0 false true (Except.ok demoUser)
        (Except.ok ()) ⟨"Alice", "a@x.com", "password1", "password1"⟩).result
      = Except.error (HttpError.unique_constraint_violation
          ErrorMessage.EmailExists.to_str)
    ∧ (HttpError.unique_constraint_violation ErrorMessage.EmailExists.to_str).status
        = 409
    ∧ (HttpError.unique_constraint_violation ErrorMessage.EmailExists.to_str).status
        ≠ 500 := by
  exact ⟨by decide, by decide, by decide, by decide⟩

/-- Counterexample to claim C8 as stated: logging in against a stored user
whose password column is `"not-a-valid-hash"` does not produce a 500-class
`HashingError`/`MalformedHash` error passed through unchanged — it produces
the 400 `WrongCredentials` error. -/
theorem claim_c8_counterexample :
    login ⟨"secret", 60⟩ demoD (fun _ => Except.ok (some demoUserBadHash)) 0
        ⟨"a@x.com", "password1"⟩
      = Except.error (HttpError.bad_request ErrorMessage.WrongCredentials.to_str)
    ∧ (HttpError.bad_request ErrorMessage.WrongCredentials.to_str).status = 400
    ∧ ∀ m, HttpError.bad_request ErrorMessage.WrongCredentials.to_str
        ≠ HttpError.server_error m := by
  refine ⟨by decide, by decide, ?_⟩
  intro m hEq
  have hstatus := congrArg HttpError.status hEq
  simp [HttpError.bad_request, HttpError.server_error] at hstatus

/-- Claim C8 as amended: when the stored password hash cannot be parsed
during login, `compare`'s `InvalidHashFormat` (`MalformedHash`) error is
not passed through by the workflow layer — the login handler maps every
`compare` error to the user-facing 400 `WrongCredentials` error. -/
theorem claim_c8_amended_malformed_hash_mapped (env : Config)
    (D : String → String → List Nat)
    (find : String → Except DieselError (Option User)) (now : Int)
    (body : LoginUserDto) (u : User)
    (hv : validateLogin body = true)
    (hf : find body.email = Except.ok (some u))
    (h1 : 1 ≤ body.password.utf8ByteSize) (h2 : body.password.utf8ByteSize ≤ 128)
    (hparse : phcParse u.password = none) :
    login env D find now body
      = Except.error (HttpError.bad_request ErrorMessage.WrongCredentials.to_str) := by
  have hcomp : compare D body.password u.password
      = Except.error ErrorMessage.InvalidHashFormat := by
    unfold compare
    rw [if_neg (by omega), if_neg (by unfold MAX_PASSWORD_LENGTH; omega), hparse]
  simp [login, hv, hf, hcomp]

/-- Witness for the amended C8 at `demoUserBadHash`. -/
theorem claim_c8_amended_malformed_hash_mapped_witness :
    login ⟨"secret", 30⟩ demoD (fun _ => Except.ok (some demoUserBadHash)) 5
        ⟨"a@x.com", "password1"⟩
      = Except.error (HttpError.bad_request ErrorMessage.WrongCredentials.to_str) :=
  claim_c8_amended_malformed_hash_mapped ⟨"secret", 30⟩ demoD
    (fun _ => Except.ok (some demoUserBadHash)) 5 ⟨"a@x.com", "password1"⟩
    demoUserBadHash (by decide) rfl (by decide) (by decide) (by decide)

/-- Claim C9: when validation, hashing and persistence succeed, a failure
of the verification-email send does not change the outcome — `register`
still returns the 201 success result, identical to the one returned when
the send succeeds, and the mail error only appears in the log. -/
theorem claim_c9_mail_failure_ignored (D : String → String → List Nat)
    (vtoken : String) (expires_at : Int) (insertedUser : User) (m : String)
    (body : RegisterUserDto)
    (hv : validateRegister body = true)
    (h1 : 1 ≤ body.password.utf8ByteSize) (h2 : body.password.utf8ByteSize ≤ 128) :
    (register D vtoken expires_at true true (Except.ok insertedUser)
        (Except.error m) body).result
      = Except.ok (201, ⟨"success",
          "Registration successfull Please check your emil to verify your account."⟩)
    ∧ (register D vtoken expires_at true true (Except.ok insertedUser)
        (Except.error m) body).result
      = (register D vtoken expires_at true true (Except.ok insertedUser)
          (Except.ok ()) body).result
    ∧ (register D vtoken expires_at true true (Except.ok insertedUser)
        (Except.error m) body).log
      = ["Error sending verification email: " ++ m] := by
  have hh : hash D body.password
      = Except.ok (phcEncode ⟨SALT_STR, D body.password SALT_STR⟩) := by
    unfold hash
    rw [if_neg (by omega), if_neg (by unfold MAX_PASSWORD_LENGTH; omega)]
  refine ⟨?_, ?_, ?_⟩ <;> simp [register, hv, hh, save_user]

/-- Witness for C9 at a concrete registration with a failing mail send. -/
theorem claim_c9_mail_failure_ignored_witness :
    (register demoD "tok" 0 true true (Except.ok demoUser)
        (Except.error "smtp down")
        ⟨"Alice", "a@x.com", "password1", "password1"⟩).result
      = Except.ok (201, ⟨"success",
          "Registration successfull Please check your emil to verify your account."⟩)
    ∧ (register demoD "tok" 0 true true (Except.ok demoUser)
        (Except.error "smtp down")
        ⟨"Alice", "a@x.com", "password1", "password1"⟩).log
      = ["Error sending verification email: " ++ "smtp down"] := by
  have h := claim_c9_mail_failure_ignored demoD "tok" 0 demoUser "smtp down"
    ⟨"Alice", "a@x.com", "password1", "password1"⟩ (by decide) (by decide) (by decide)
  exact ⟨h.1, h.2.2⟩

/-- Claim C10: the pagination offset of `get_users` is `(page - 1) * limit`
on unsigned 32-bit arithmetic with no in-function check, so it is
well-defined only under the precondition `page ≥ 1`: at `page = 0` the
checked (debug) semantics panics and the wrapping (release) semantics
produces a huge offset, while for `page ≥ 1` (without `u32` overflow) the
offset is the intended `(page - 1) * limit`. -/
theorem claim_c10_get_users_offset :
    (∀ limit, get_users_offset_checked 0 limit = none)
    ∧ get_users_offset_wrapping 0 10 = 4294967286
    ∧ ∀ page limit, 1 ≤ page → page < U32_MOD → (page - 1) * limit < U32_MOD →
        get_users_offset_wrapping page limit = (page - 1) * limit := by
  refine ⟨fun limit => rfl, by decide, ?_⟩
  intro page limit h1 h2 h3
  unfold get_users_offset_wrapping
  have e1 : (page + U32_MOD - 1) % U32_MOD = page - 1 := by
    have e : page + U32_MOD - 1 = (page - 1) + U32_MOD := by omega
    rw [e, Nat.add_mod_right]
    exact Nat.mod_eq_of_lt (by omega)
  rw [e1]
  by_cases hl : limit < U32_MOD
  · rw [Nat.mod_eq_of_lt hl, Nat.mod_eq_of_lt h3]
  · have hp0 : page - 1 = 0 := by
      by_contra hne
      have hpos : 1 ≤ page - 1 := by omega
      have : limit ≤ (page - 1) * limit := Nat.le_mul_of_pos_left limit (by omega)
      omega
    rw [hp0]
    simp

/-- Witness for C10 at `page = 3`, `limit = 10`. -/
theorem claim_c10_get_users_offset_witness :
    get_users_offset_wrapping 3 10 = (3 - 1) * 10 :=
  claim_c10_get_users_offset.2.2 3 10 (by decide) (by decide) (by decide)

end NotesApp
